import Mathlib

/-!
Verification of the configuration-precedence engine of `cli-workspace`.

The engine is generated by the `LoadConfig` derive macro in
`load-config-derive/src/lib.rs` for a struct with named fields; the
repository instantiates it at the `Opts` struct of `rust-cli/src/main.rs`
(fields `config : String`, `first_name : String`, `last_name : String`,
`age : u8`, with clap defaults `"config.yml"`, `"John"`, `"Doe"`, `42`).
We embed the generated code for that instantiation: the generated
`ConfigLoaderOpts` partial-configuration struct, its `merge`, `resolve`
and `from_env` methods, the `From<ConfigLoaderOpts> for Opts` finalizer,
and the `load_config` orchestration (the branch for a struct that has a
`config : String` field).  External collaborators (clap argument parsing,
`serde_yaml` decoding, the filesystem, the process environment) enter as
explicit parameters, exactly where the generated code calls them.
-/

namespace CliWorkspace

/-- The partial configuration struct the macro generates for `Opts`:
each source field `f : T` becomes `pub f : Option<T>`.  `u8` values are
embedded as `Nat` (the u8 range is enforced by the parser, see
`parseU8`). -/
structure ConfigLoaderOpts where
  config : Option String
  first_name : Option String
  last_name : Option String
  age : Option Nat
  deriving Repr, DecidableEq

/-- The final `Opts` struct of `rust-cli/src/main.rs`: every field holds
a value. -/
structure Opts where
  config : String
  first_name : String
  last_name : String
  age : Nat
  deriving Repr, DecidableEq

/-- Per-field body of the generated `merge`:
`rhs.#name.clone().or_else(|| lhs.#name.clone())`. -/
def mergeField {α : Type} (l r : Option α) : Option α :=
  r.orElse (fun _ => l)

/-- The generated `ConfigLoaderOpts::merge(lhs, rhs)`: field-wise
right-biased combination. -/
def merge (lhs rhs : ConfigLoaderOpts) : ConfigLoaderOpts where
  config := mergeField lhs.config rhs.config
  first_name := mergeField lhs.first_name rhs.first_name
  last_name := mergeField lhs.last_name rhs.last_name
  age := mergeField lhs.age rhs.age

/-- Per-field body of the generated `resolve`:
`if cli_opts.#name.as_ref() != default_value_opts.#name.as_ref()
 { cli_opts.#name.clone() } else { precedence_opts.#name.clone() }`. -/
def resolveField {α : Type} [DecidableEq α] (cli dflt prec : Option α) : Option α :=
  if cli ≠ dflt then cli else prec

/-- The generated `ConfigLoaderOpts::resolve(cli_opts, default_value_opts,
precedence_opts)`. -/
def resolve (cliOpts defaultValueOpts precedenceOpts : ConfigLoaderOpts) : ConfigLoaderOpts where
  config := resolveField cliOpts.config defaultValueOpts.config precedenceOpts.config
  first_name := resolveField cliOpts.first_name defaultValueOpts.first_name precedenceOpts.first_name
  last_name := resolveField cliOpts.last_name defaultValueOpts.last_name precedenceOpts.last_name
  age := resolveField cliOpts.age defaultValueOpts.age precedenceOpts.age

/-- Rust's `str::parse::<u8>()` (`u8::from_str`): an optional leading
`+` sign, then one or more decimal digits, value at most 255; anything
else (empty, `-`, non-digits, overflow) is an error, embedded as
`none`. -/
def parseU8 (s : String) : Option Nat :=
  let t := match s.data with
    | c :: rest => if c = '+' then rest else c :: rest
    | [] => []
  if t.isEmpty then none
  else if t.all (fun c => c.isDigit) then
    let n := t.foldl (fun a c => a * 10 + (c.toNat - 48)) 0
    if n ≤ 255 then some n else none
  else none

/-- Rust's `str::parse::<String>()`: infallible, returns the string
itself. -/
def parseStr (s : String) : Option String :=
  some s

/-- The environment-variable name the macro derives for a field:
`ident.to_string().to_uppercase()`. -/
def envKey (name : String) : String :=
  String.mk (name.data.map Char.toUpper)

/-- The generated `ConfigLoaderOpts::from_env()`, with the process
environment abstracted as `env : String → Option String`
(`std::env::var(KEY).ok()`).  Every field of `Opts` is non-`Option`, so
each assignment is `std::env::var(KEY).ok().and_then(|s| s.parse().ok())`
with the field's `FromStr` parser. -/
def from_env (env : String → Option String) : ConfigLoaderOpts where
  config := (env (envKey "config")).bind parseStr
  first_name := (env (envKey "first_name")).bind parseStr
  last_name := (env (envKey "last_name")).bind parseStr
  age := (env (envKey "age")).bind parseU8

/-- `ConfigLoaderOpts::parse_from([] as [&str; 0])`: clap's zero-argument
parse fills every flag with its declared default value, each wrapped as
present (`Opts` declares defaults for all four fields). -/
def defaultValueOpts : ConfigLoaderOpts where
  config := some "config.yml"
  first_name := some "John"
  last_name := some "Doe"
  age := some 42

/-- The generated `impl From<ConfigLoaderOpts> for Opts`: per field
`config_opts.#name.take().unwrap_or_default()` — a present value is
kept, an absent one is replaced by the Rust `Default` of the field type
(`""` for `String`, `0` for `u8`). -/
def finalize (c : ConfigLoaderOpts) : Opts where
  config := c.config.getD ""
  first_name := c.first_name.getD ""
  last_name := c.last_name.getD ""
  age := c.age.getD 0

/-- State of one path in the filesystem, as `load_config` observes it:
the path does not exist, or it exists but `read_to_string` fails, or it
exists and reads to `contents`. -/
inductive FileState
  | absent
  | unreadable
  | readable (contents : String)
  deriving Repr, DecidableEq

/-- The `yml_opts` computation inside the generated `load_config`:
`if let Some(config_path) = cli_opts.config.as_deref() {
   if Path::new(config_path).exists() {
     match fs::read_to_string(config_path) {
       Ok(c) => serde_yaml::from_str(&c)?,
       Err(_) => default_value_opts.clone() } }
   else { default_value_opts.clone() } }
 else { default_value_opts.clone() }`.
`decode` abstracts `serde_yaml::from_str`; its error propagates (the
`?`), every other branch yields a clone of the defaults. -/
def fileSource (decode : String → Except String ConfigLoaderOpts)
    (fs : String → FileState) (dflt : ConfigLoaderOpts)
    (cfgPath : Option String) : Except String ConfigLoaderOpts :=
  match cfgPath with
  | some path =>
    match fs path with
    | FileState.readable contents => decode contents
    | FileState.unreadable => Except.ok dflt
    | FileState.absent => Except.ok dflt
  | none => Except.ok dflt

/-- The generated `load_config` (branch for a struct with a
`config : String` field), with the external collaborators as parameters:
`decode` for `serde_yaml::from_str`, `fs` for the filesystem, `env` for
the process environment, and `cliOpts` for
`ConfigLoaderOpts::parse_from(args)` (clap parsing of the actual
arguments is external; an unsupplied flag comes back as its default). -/
def load_config (decode : String → Except String ConfigLoaderOpts)
    (fs : String → FileState) (env : String → Option String)
    (cliOpts : ConfigLoaderOpts) : Except String Opts :=
  match fileSource decode fs defaultValueOpts cliOpts.config with
  | Except.error e => Except.error e
  | Except.ok ymlOpts =>
    let precedenceOpts := merge defaultValueOpts ymlOpts
    let envOpts := from_env env
    let precedenceOpts2 := merge precedenceOpts envOpts
    let finalOpts := resolve cliOpts defaultValueOpts precedenceOpts2
    Except.ok (finalize finalOpts)

/-- Whether a load result is a success. -/
def loadSucceeds (r : Except String Opts) : Bool :=
  match r with
  | Except.ok _ => true
  | Except.error _ => false

/-- An all-absent partial configuration: every field carries the
explicit no-value marker. -/
def allAbsent (c : ConfigLoaderOpts) : Bool :=
  c.config.isNone && c.first_name.isNone && c.last_name.isNone && c.age.isNone

/-- The all-absent partial configuration value. -/
def emptyOpts : ConfigLoaderOpts where
  config := none
  first_name := none
  last_name := none
  age := none

/-! Test fixtures: concrete collaborators used by the witnesses. -/

/-- A decoder that yields a partial configuration setting only `age: 30`
(the file of Scenarios B/C/E). -/
def decodeAge30 : String → Except String ConfigLoaderOpts :=
  fun _ => Except.ok ⟨none, none, none, some 30⟩

/-- A decoder that always fails, as `serde_yaml::from_str` does on a
malformed file. -/
def decodeFail : String → Except String ConfigLoaderOpts :=
  fun _ => Except.error "invalid yaml"

/-- A filesystem in which `config.yml` exists and reads successfully. -/
def fsConfigYml : String → FileState :=
  fun p => if p = "config.yml" then FileState.readable "age: 30" else FileState.absent

/-- A filesystem in which every path exists but reading fails with an
I/O error. -/
def fsUnreadable : String → FileState :=
  fun _ => FileState.unreadable

/-- A filesystem with no files. -/
def fsEmpty : String → FileState :=
  fun _ => FileState.absent

/-- An empty process environment. -/
def envEmpty : String → Option String :=
  fun _ => none

/-- An environment with `AGE=51` only. -/
def envAge51 : String → Option String :=
  fun k => if k = "AGE" then some "51" else none

/-- An environment with `AGE=300` (unparseable as u8) and
`FIRST_NAME=Jane`. -/
def envSample : String → Option String :=
  fun k => if k = "AGE" then some "300"
    else if k = "FIRST_NAME" then some "Jane" else none

/-- A command line that differs from the defaults only in `--age 7`
(Scenario D style explicit flag). -/
def cliAge7 : ConfigLoaderOpts where
  config := some "config.yml"
  first_name := some "John"
  last_name := some "Doe"
  age := some 7

/-- A command line whose `config` field is absent. -/
def cliNoPath : ConfigLoaderOpts where
  config := none
  first_name := some "John"
  last_name := some "Doe"
  age := some 42

/-- A sample baseline used by witnesses. -/
def baseSample : ConfigLoaderOpts where
  config := some "alt.yml"
  first_name := some "Jane"
  last_name := some "Roe"
  age := some 30

/-! Helper lemmas shared across claims. -/

/-- `mergeField l r` keeps `r` when it is present and falls back to
`l` otherwise. -/
theorem mergeField_eq {α : Type} (l r : Option α) :
    mergeField l r = if r.isSome then r else l := by
  cases r <;> rfl

/-- `mergeField` is associative. -/
theorem mergeField_assoc {α : Type} (a b c : Option α) :
    mergeField (mergeField a b) c = mergeField a (mergeField b c) := by
  cases c <;> rfl

/-- `resolveField` takes the command-line value when it differs from
the default. -/
theorem resolveField_of_ne {α : Type} [DecidableEq α] (cli dflt prec : Option α)
    (h : cli ≠ dflt) : resolveField cli dflt prec = cli :=
  if_pos h

/-- `resolveField` takes the baseline value when the command-line value
equals the default. -/
theorem resolveField_of_eq {α : Type} [DecidableEq α] (cli dflt prec : Option α)
    (h : cli = dflt) : resolveField cli dflt prec = prec := by
  simp [resolveField, h]

/-- A present optional keeps its value under `getD`. -/
theorem getD_of_some {α : Type} {o : Option α} {v : α} (d : α) (h : o = some v) :
    o.getD d = v := by
  simp [h]

/-- An absent optional falls back to the default under `getD`. -/
theorem getD_of_none {α : Type} {o : Option α} (d : α) (h : o = none) :
    o.getD d = d := by
  simp [h]

/-- The derived environment-variable names of the four fields are the
uppercased field names. -/
theorem envKey_uppercases :
    envKey "config" = "CONFIG" ∧ envKey "first_name" = "FIRST_NAME" ∧
    envKey "last_name" = "LAST_NAME" ∧ envKey "age" = "AGE" := by
  decide

/-! Claim theorems. -/

/-- Claim C1: for every field `f` and all partial configurations
`cliOpts`, `defaultOpts`, `baseline`: if `cliOpts.f` is unequal to
`defaultOpts.f` (Option equality already treats present-vs-absent and
two differing present values as unequal) then
`resolve(cliOpts, defaultOpts, baseline).f = cliOpts.f` regardless of
`baseline.f`; otherwise it equals `baseline.f`.  Stated as a
conjunction over the four fields of the generated struct. -/
theorem C1_resolve_override (cliOpts defaultOpts baseline : ConfigLoaderOpts) :
    ((cliOpts.config ≠ defaultOpts.config →
        (resolve cliOpts defaultOpts baseline).config = cliOpts.config) ∧
      (cliOpts.config = defaultOpts.config →
        (resolve cliOpts defaultOpts baseline).config = baseline.config)) ∧
    ((cliOpts.first_name ≠ defaultOpts.first_name →
        (resolve cliOpts defaultOpts baseline).first_name = cliOpts.first_name) ∧
      (cliOpts.first_name = defaultOpts.first_name →
        (resolve cliOpts defaultOpts baseline).first_name = baseline.first_name)) ∧
    ((cliOpts.last_name ≠ defaultOpts.last_name →
        (resolve cliOpts defaultOpts baseline).last_name = cliOpts.last_name) ∧
      (cliOpts.last_name = defaultOpts.last_name →
        (resolve cliOpts defaultOpts baseline).last_name = baseline.last_name)) ∧
    ((cliOpts.age ≠ defaultOpts.age →
        (resolve cliOpts defaultOpts baseline).age = cliOpts.age) ∧
      (cliOpts.age = defaultOpts.age →
        (resolve cliOpts defaultOpts baseline).age = baseline.age)) :=
  ⟨⟨resolveField_of_ne _ _ _, resolveField_of_eq _ _ _⟩,
    ⟨resolveField_of_ne _ _ _, resolveField_of_eq _ _ _⟩,
    ⟨resolveField_of_ne _ _ _, resolveField_of_eq _ _ _⟩,
    ⟨resolveField_of_ne _ _ _, resolveField_of_eq _ _ _⟩⟩

/-- Witness for C1 at concrete inputs: `cliAge7` differs from the
defaults in `age` only, so `age` comes from the command line and
`config` comes from the baseline. -/
theorem C1_resolve_override_witness :
    (resolve cliAge7 defaultValueOpts baseSample).age = some 7 ∧
    (resolve cliAge7 defaultValueOpts baseSample).config = some "alt.yml" := by
  have h := C1_resolve_override cliAge7 defaultValueOpts baseSample
  exact ⟨h.2.2.2.1 (by decide), h.1.2 (by decide)⟩

/-- Claim C2: for all partial configurations `A`, `B` and every field
`f`: `merge(A, B).f = B.f` when `B.f` is present, and `A.f` otherwise.
Purity is inherent in the embedding: `merge` is a Lean function of its
two arguments, mirroring the generated Rust method, which only reads
its two borrowed arguments. -/
theorem C2_merge_right_bias (A B : ConfigLoaderOpts) :
    ((merge A B).config = if (B.config).isSome then B.config else A.config) ∧
    ((merge A B).first_name = if (B.first_name).isSome then B.first_name else A.first_name) ∧
    ((merge A B).last_name = if (B.last_name).isSome then B.last_name else A.last_name) ∧
    ((merge A B).age = if (B.age).isSome then B.age else A.age) :=
  ⟨mergeField_eq _ _, mergeField_eq _ _, mergeField_eq _ _, mergeField_eq _ _⟩

/-- Claim C3: `merge` is associative. -/
theorem C3_merge_assoc (A B C : ConfigLoaderOpts) :
    merge (merge A B) C = merge A (merge B C) := by
  simp only [merge, ConfigLoaderOpts.mk.injEq]
  exact ⟨mergeField_assoc _ _ _, mergeField_assoc _ _ _,
    mergeField_assoc _ _ _, mergeField_assoc _ _ _⟩

/-- Claim C9: the assembler is total — `finalize` is a total Lean
function into `Opts`, whose fields are all non-optional, so the result
has no absent field.  Per field: a present value is kept, an absent one
is replaced by the field type's default (`""` for the strings, `0` for
the u8). -/
theorem C9_finalize_total (P : ConfigLoaderOpts) :
    ((∀ v, P.config = some v → (finalize P).config = v) ∧
      (P.config = none → (finalize P).config = "")) ∧
    ((∀ v, P.first_name = some v → (finalize P).first_name = v) ∧
      (P.first_name = none → (finalize P).first_name = "")) ∧
    ((∀ v, P.last_name = some v → (finalize P).last_name = v) ∧
      (P.last_name = none → (finalize P).last_name = "")) ∧
    ((∀ v, P.age = some v → (finalize P).age = v) ∧
      (P.age = none → (finalize P).age = 0)) :=
  ⟨⟨fun _ h => getD_of_some _ h, fun h => getD_of_none _ h⟩,
    ⟨fun _ h => getD_of_some _ h, fun h => getD_of_none _ h⟩,
    ⟨fun _ h => getD_of_some _ h, fun h => getD_of_none _ h⟩,
    ⟨fun _ h => getD_of_some _ h, fun h => getD_of_none _ h⟩⟩

/-- Witness for C9 at a concrete partial configuration with two present
and two absent fields. -/
theorem C9_finalize_total_witness :
    (finalize ⟨some "c.yml", none, some "Roe", none⟩).config = "c.yml" ∧
    (finalize ⟨some "c.yml", none, some "Roe", none⟩).first_name = "" ∧
    (finalize ⟨some "c.yml", none, some "Roe", none⟩).last_name = "Roe" ∧
    (finalize ⟨some "c.yml", none, some "Roe", none⟩).age = 0 := by
  have h := C9_finalize_total ⟨some "c.yml", none, some "Roe", none⟩
  exact ⟨h.1.1 _ rfl, h.2.1.2 rfl, h.2.2.1.1 _ rfl, h.2.2.2.2 rfl⟩

/-- Claim C8: the environment provider looks each field up under the
uppercased field name; a present, parseable value yields a present
field, a missing or unparseable one yields an absent field.  The
provider never fails: `from_env` is a total function into
`ConfigLoaderOpts` (the generated Rust returns `Self`, no `Result`).
The three string fields parse with the infallible `String` parser, so
the unparseable case is vacuous for them. -/
theorem C8_from_env_per_field (env : String → Option String) :
    envKey "config" = "CONFIG" ∧ envKey "first_name" = "FIRST_NAME" ∧
    envKey "last_name" = "LAST_NAME" ∧ envKey "age" = "AGE" ∧
    (∀ s v, env (envKey "age") = some s → parseU8 s = some v →
      (from_env env).age = some v) ∧
    (env (envKey "age") = none → (from_env env).age = none) ∧
    (∀ s, env (envKey "age") = some s → parseU8 s = none →
      (from_env env).age = none) ∧
    (∀ s, env (envKey "config") = some s → (from_env env).config = some s) ∧
    (env (envKey "config") = none → (from_env env).config = none) ∧
    (∀ s, env (envKey "first_name") = some s → (from_env env).first_name = some s) ∧
    (env (envKey "first_name") = none → (from_env env).first_name = none) ∧
    (∀ s, env (envKey "last_name") = some s → (from_env env).last_name = some s) ∧
    (env (envKey "last_name") = none → (from_env env).last_name = none) := by
  refine ⟨envKey_uppercases.1, envKey_uppercases.2.1,
    envKey_uppercases.2.2.1, envKey_uppercases.2.2.2,
    fun s v hs hp => ?_, fun hs => ?_, fun s hs hp => ?_,
    fun s hs => ?_, fun hs => ?_, fun s hs => ?_, fun hs => ?_,
    fun s hs => ?_, fun hs => ?_⟩ <;>
  simp [from_env, parseStr, hs]
  · exact hp
  · simp [hp]

/-- Witness for C8: in `envSample`, `AGE=300` overflows u8 and is
treated as absent, `FIRST_NAME=Jane` is taken, and the unset `CONFIG`
is absent. -/
theorem C8_from_env_per_field_witness :
    (from_env envSample).age = none ∧
    (from_env envSample).first_name = some "Jane" ∧
    (from_env envSample).config = none := by
  have h := C8_from_env_per_field envSample
  refine ⟨h.2.2.2.2.2.2.1 "300" ?_ (by decide),
    h.2.2.2.2.2.2.2.2.2.1 "Jane" ?_, h.2.2.2.2.2.2.2.2.1 ?_⟩ <;> decide

/-- Claim C4 (Scenario C, env overrides file): with the config path
present and readable, the file decoding to a partial configuration with
`age: 30`, the environment holding `AGE=51`, and no `--age` flag passed
(so the parsed command-line `age` equals the zero-argument default),
`load_config` succeeds and the final configuration's `age` is 51. -/
theorem C4_env_overrides_file
    (decode : String → Except String ConfigLoaderOpts)
    (fs : String → FileState) (env : String → Option String)
    (cli yml : ConfigLoaderOpts) (path contents : String)
    (hpath : cli.config = some path)
    (hread : fs path = FileState.readable contents)
    (hdecode : decode contents = Except.ok yml)
    (hfileAge : yml.age = some 30)
    (henv : env "AGE" = some "51")
    (hnoflag : cli.age = defaultValueOpts.age) :
    (load_config decode fs env cli).map Opts.age = Except.ok 51 := by
  have hkey : envKey "age" = "AGE" := by decide
  have h51 : parseU8 "51" = some 51 := by decide
  simp [load_config, fileSource, hpath, hread, hdecode, merge, mergeField,
    resolve, resolveField, from_env, finalize, hkey, henv, h51, hfileAge,
    hnoflag, Except.map]

/-- Witness for C4 with fully concrete collaborators. -/
theorem C4_env_overrides_file_witness :
    (load_config decodeAge30 fsConfigYml envAge51 defaultValueOpts).map Opts.age
      = Except.ok 51 :=
  C4_env_overrides_file decodeAge30 fsConfigYml envAge51 defaultValueOpts
    ⟨none, none, none, some 30⟩ "config.yml" "age: 30"
    rfl (by decide) rfl rfl (by decide) rfl

/-- Claim C5 (Scenario E, CLI equals default): the file sets `age: 30`,
the environment does not set `AGE`, and the command-line `age` parses
to 42 — exactly the compiled default — so the resolver cannot detect
explicit intent and the baseline wins: the final `age` is 30. -/
theorem C5_cli_default_ambiguity
    (decode : String → Except String ConfigLoaderOpts)
    (fs : String → FileState) (env : String → Option String)
    (cli yml : ConfigLoaderOpts) (path contents : String)
    (hpath : cli.config = some path)
    (hread : fs path = FileState.readable contents)
    (hdecode : decode contents = Except.ok yml)
    (hfileAge : yml.age = some 30)
    (henv : env "AGE" = none)
    (hcliAge : cli.age = some 42) :
    (load_config decode fs env cli).map Opts.age = Except.ok 30 := by
  have hkey : envKey "age" = "AGE" := by decide
  have hdflt : defaultValueOpts.age = some 42 := rfl
  simp [load_config, fileSource, hpath, hread, hdecode, merge, mergeField,
    resolve, resolveField, from_env, finalize, hkey, henv, hfileAge,
    hcliAge, hdflt, Except.map]

/-- Witness for C5: the command line is exactly the zero-argument
defaults (`--age 42` repeats the compiled default). -/
theorem C5_cli_default_ambiguity_witness :
    (load_config decodeAge30 fsConfigYml envEmpty defaultValueOpts).map Opts.age
      = Except.ok 30 :=
  C5_cli_default_ambiguity decodeAge30 fsConfigYml envEmpty defaultValueOpts
    ⟨none, none, none, some 30⟩ "config.yml" "age: 30"
    rfl (by decide) rfl rfl rfl rfl

/-- Counterexample to C6 as stated: with the file absent at the path,
the file source returns the clone of the zero-argument defaults — a
partial configuration with every field PRESENT — not an all-absent one. -/
theorem C6_file_absent_counterexample :
    fileSource decodeAge30 fsEmpty defaultValueOpts (some "config.yml")
      = Except.ok defaultValueOpts
    ∧ allAbsent defaultValueOpts = false := by
  constructor
  · rfl
  · decide

/-- Claim C6 as amended: when the config path is absent or the file
does not exist, the file source yields `default_value_opts.clone()` —
the all-present defaults, not an all-absent configuration — and
`load_config` does not fail.  Merging that clone over the defaults
produces the same baseline as merging an all-absent configuration
would, so the observable behavior matches the spec's description. -/
theorem C6_file_absent_defaults_clone
    (decode : String → Except String ConfigLoaderOpts)
    (fs : String → FileState) (env : String → Option String)
    (cli : ConfigLoaderOpts)
    (h : cli.config = none ∨ ∃ p, cli.config = some p ∧ fs p = FileState.absent) :
    fileSource decode fs defaultValueOpts cli.config = Except.ok defaultValueOpts
    ∧ loadSucceeds (load_config decode fs env cli) = true
    ∧ merge defaultValueOpts defaultValueOpts = merge defaultValueOpts emptyOpts := by
  have hfile : fileSource decode fs defaultValueOpts cli.config
      = Except.ok defaultValueOpts := by
    rcases h with h | ⟨p, hp, habs⟩
    · simp [fileSource, h]
    · simp [fileSource, hp, habs]
  refine ⟨hfile, ?_, by decide⟩
  simp [load_config, hfile, loadSucceeds]

/-- Witness for the amended C6: no config path at all. -/
theorem C6_file_absent_defaults_clone_witness :
    fileSource decodeAge30 fsEmpty defaultValueOpts cliNoPath.config
      = Except.ok defaultValueOpts
    ∧ loadSucceeds (load_config decodeAge30 fsEmpty envEmpty cliNoPath) = true
    ∧ merge defaultValueOpts defaultValueOpts = merge defaultValueOpts emptyOpts :=
  C6_file_absent_defaults_clone decodeAge30 fsEmpty envEmpty cliNoPath (Or.inl rfl)

/-- Claim C7 (Scenario F): when the file exists and reads successfully
but its contents fail to decode, `load_config` returns exactly the
decode error — all-or-nothing, no configuration is produced. -/
theorem C7_decode_error_propagates
    (decode : String → Except String ConfigLoaderOpts)
    (fs : String → FileState) (env : String → Option String)
    (cli : ConfigLoaderOpts) (path contents e : String)
    (hpath : cli.config = some path)
    (hread : fs path = FileState.readable contents)
    (hdecode : decode contents = Except.error e) :
    load_config decode fs env cli = Except.error e
    ∧ ∀ o : Opts, load_config decode fs env cli ≠ Except.ok o := by
  have hres : load_config decode fs env cli = Except.error e := by
    simp [load_config, fileSource, hpath, hread, hdecode]
  exact ⟨hres, fun o ho => by simp [hres] at ho⟩

/-- Witness for C7 with a concrete failing decoder. -/
theorem C7_decode_error_propagates_witness :
    load_config decodeFail fsConfigYml envEmpty defaultValueOpts
      = Except.error "invalid yaml"
    ∧ ∀ o : Opts, load_config decodeFail fsConfigYml envEmpty defaultValueOpts
      ≠ Except.ok o :=
  C7_decode_error_propagates decodeFail fsConfigYml envEmpty defaultValueOpts
    "config.yml" "age: 30" "invalid yaml" rfl (by decide) rfl

/-- Claim C10: when the path is present and the file exists but
`read_to_string` fails with an I/O error, `load_config` does not
return an error: the file source contributes the defaults clone, the
load behaves exactly as if the file were absent, and resolution
proceeds with defaults, environment and command line only. -/
theorem C10_read_error_silently_ignored
    (decode : String → Except String ConfigLoaderOpts)
    (fs : String → FileState) (env : String → Option String)
    (cli : ConfigLoaderOpts) (path : String)
    (hpath : cli.config = some path)
    (hread : fs path = FileState.unreadable) :
    fileSource decode fs defaultValueOpts cli.config = Except.ok defaultValueOpts
    ∧ load_config decode fs env cli = load_config decode fsEmpty env cli
    ∧ loadSucceeds (load_config decode fs env cli) = true := by
  have hfile : fileSource decode fs defaultValueOpts cli.config
      = Except.ok defaultValueOpts := by
    simp [fileSource, hpath, hread]
  refine ⟨hfile, ?_, ?_⟩
  · simp [load_config, fileSource, hpath, hread, fsEmpty]
  · simp [load_config, hfile, loadSucceeds]

/-- Witness for C10 with a filesystem whose reads all fail. -/
theorem C10_read_error_silently_ignored_witness :
    fileSource decodeAge30 fsUnreadable defaultValueOpts defaultValueOpts.config
      = Except.ok defaultValueOpts
    ∧ load_config decodeAge30 fsUnreadable envAge51 defaultValueOpts
      = load_config decodeAge30 fsEmpty envAge51 defaultValueOpts
    ∧ loadSucceeds (load_config decodeAge30 fsUnreadable envAge51 defaultValueOpts)
      = true :=
  C10_read_error_silently_ignored decodeAge30 fsUnreadable envAge51
    defaultValueOpts "config.yml" rfl rfl

end CliWorkspace
